import Mathlib

/-!
Verification of the intervals-mcp-server HTTP request client and event tools.

The Python source is embedded shallowly: pure helpers become Lean functions,
the stateful shared-client logic becomes explicit state passing over a
`ClientState`, and the network is an oracle (`Transport`) giving the outcome
of each send attempt.  Machine-level details (bytes, sockets) are abstracted
to the decode classification of the response body, which is all the code
inspects.
-/

namespace IntervalsMcp

/-- JSON values exactly as the Python handlers see them after `response.json()`:
`None`, booleans, numbers (modelled as integers; no claim touches fractions),
strings, lists and dicts (association lists, preserving insertion order as
Python dicts do). -/
inductive Json where
  | null : Json
  | bool : Bool → Json
  | num : Int → Json
  | str : String → Json
  | arr : List Json → Json
  | obj : List (String × Json) → Json

/-- Key lookup in a JSON object, first binding wins (Python dicts have unique
keys, so association lists with distinct keys model them; lookup order is
irrelevant for distinct keys). -/
def jlookup (k : String) : List (String × Json) → Option Json
  | [] => none
  | (k', v) :: rest => if k' = k then some v else jlookup k rest

/-- Python `k in d` on a dict: key presence, ignoring the value. -/
def hasKey (k : String) (kvs : List (String × Json)) : Bool :=
  (jlookup k kvs).isSome

/-- Python truthiness (`if not result:`) of a JSON value. -/
def Json.pyFalsy : Json → Bool
  | .null => true
  | .bool b => !b
  | .num n => n == 0
  | .str s => s.isEmpty
  | .arr xs => xs.isEmpty
  | .obj kvs => kvs.isEmpty

mutual
/-- Python `str()` of a JSON value, as used by f-string interpolation of a
dict entry (`f"... {error_message}"`).  Containers render via `repr`, whose
exact spelling no claim depends on. -/
def pyStr : Json → String
  | .null => "None"
  | .bool true => "True"
  | .bool false => "False"
  | .num n => toString n
  | .str s => s
  | .arr xs => "[" ++ pyStrList xs ++ "]"
  | .obj kvs => "\x7b" ++ pyStrObj kvs ++ "\x7d"

def pyStrList : List Json → String
  | [] => ""
  | [x] => pyStr x
  | x :: rest => pyStr x ++ ", " ++ pyStrList rest

def pyStrObj : List (String × Json) → String
  | [] => ""
  | [(k, v)] => "'" ++ k ++ "': " ++ pyStr v
  | (k, v) :: rest => "'" ++ k ++ "': " ++ pyStr v ++ ", " ++ pyStrObj rest
end

mutual
/-- `json.dumps` of a JSON value (the `indent=2` layout is modelled up to
whitespace; no claim inspects the serialised payload beyond its presence). -/
def jsonDumps : Json → String
  | .null => "null"
  | .bool true => "true"
  | .bool false => "false"
  | .num n => toString n
  | .str s => "\"" ++ s ++ "\""
  | .arr xs => "[" ++ jsonDumpsList xs ++ "]"
  | .obj kvs => "\x7b" ++ jsonDumpsObj kvs ++ "\x7d"

def jsonDumpsList : List Json → String
  | [] => ""
  | [x] => jsonDumps x
  | x :: rest => jsonDumps x ++ ", " ++ jsonDumpsList rest

def jsonDumpsObj : List (String × Json) → String
  | [] => ""
  | [(k, v)] => "\"" ++ k ++ "\": " ++ jsonDumps v
  | (k, v) :: rest => "\"" ++ k ++ "\": " ++ jsonDumps v ++ ", " ++ jsonDumpsObj rest
end

/-- Lowercasing of one character, as Python `str.lower()` acts on the ASCII
range (the only characters the compared keywords and fault markers use). -/
def charLower (c : Char) : Char :=
  if 65 ≤ c.toNat ∧ c.toNat ≤ 90 then Char.ofNat (c.toNat + 32) else c

/-- Python `str.lower()`, character by character. -/
def strLower (s : String) : String :=
  ⟨s.data.map charLower⟩

/-- Contiguous-sublist test on character lists (Boolean). -/
def charsInfix (needle : List Char) : List Char → Bool
  | [] => needle.isEmpty
  | c :: rest => List.isPrefixOf needle (c :: rest) || charsInfix needle rest

/-- Python substring test `needle in hay` on strings. -/
def strContainsSub (hay needle : String) : Bool :=
  charsInfix needle.data hay.data

/-- Python truthiness of an optional string (`if not key_to_use:` where the
value is `str | None`): `None` and the empty string are falsy. -/
def pyFalsyOptStr : Option String → Bool
  | none => true
  | some s => s.isEmpty

/-- Modelled from the spec: the configuration resolver (`config.py` is not in
the source tree).  It loads the API base URL, the default athlete ID, the
default API key and the user agent string from the environment; environment
variables may be absent, so the defaults are optional strings. -/
structure Config where
  api_key : Option String
  athlete_id : Option String
  intervals_api_base_url : String
  user_agent : String

/-- `httpx.BasicAuth(username, password)`. -/
structure BasicAuth where
  username : String
  password : String
deriving DecidableEq

/-- `key_to_use = api_key if api_key is not None else config.api_key`
(from `_prepare_request_config`). -/
def key_to_use (api_key : Option String) (cfg : Config) : Option String :=
  match api_key with
  | some k => some k
  | none => cfg.api_key

/-- `_prepare_request_config` from `api/client.py`: returns
`(full_url, auth, headers, error_message)`; `error_message` is `None` when
the configuration is valid. -/
def _prepare_request_config (cfg : Config) (url : String) (api_key : Option String)
    (method : String) :
    String × BasicAuth × List (String × String) × Option String :=
  let headers := [("User-Agent", cfg.user_agent), ("Accept", "application/json")]
  let headers :=
    if method = "POST" ∨ method = "PUT" then
      headers ++ [("Content-Type", "application/json")]
    else headers
  let key := key_to_use api_key cfg
  if pyFalsyOptStr key then
    ("", ⟨"", ""⟩, [], some "API key is required. Set API_KEY env var or pass api_key")
  else
    (cfg.intervals_api_base_url ++ url, ⟨"API_KEY", key.getD ""⟩, headers, none)

/-- `_get_error_message` from `api/client.py`: the seven mapped status codes
get a fixed human-readable message (built from `HTTPStatus.value` and
`HTTPStatus.phrase`); every other code — whether or not it is a valid
`HTTPStatus` member — falls back to the raw response text. -/
def _get_error_message (error_code : Nat) (error_text : String) : String :=
  if error_code = 401 then
    "401 Unauthorized: Please check your API key."
  else if error_code = 403 then
    "403 Forbidden: You may not have permission to access this resource."
  else if error_code = 404 then
    "404 Not Found: The requested endpoint or ID doesn't exist."
  else if error_code = 422 then
    "422 Unprocessable Entity: The server couldn't process the request (invalid parameters or unsupported operation)."
  else if error_code = 429 then
    "429 Too Many Requests: Too many requests in a short time period."
  else if error_code = 500 then
    "500 Internal Server Error: The Intervals.icu server encountered an internal error."
  else if error_code = 503 then
    "503 Service Unavailable: The Intervals.icu server might be down or undergoing maintenance."
  else
    error_text

/-- The decode classification of an HTTP response body, which is all
`_parse_response` inspects: `empty` means `response.content` is empty,
`json v` a non-empty body decoding to `v`, `invalid` a non-empty body on
which `response.json()` raises `JSONDecodeError`. -/
inductive Body where
  | empty : Body
  | json : Json → Body
  | invalid : Body

/-- An `httpx.Response` as seen by the client code: numeric status, body
decode classification, and the raw `response.text`. -/
structure HttpResponse where
  status : Nat
  body : Body
  text : String

/-- `httpx.Response.is_success`: status in the 2xx range; `raise_for_status`
raises `HTTPStatusError` exactly when this is false. -/
def is2xx (status : Nat) : Bool :=
  200 ≤ status && status < 300

/-- A normalized error record built by the client layer:
`{"error": True, "status_code"?: int, "message": str}`. -/
structure ErrRecord where
  status_code : Option Nat
  message : String

/-- The dict literally constructed by the client for an error record; the
`"error"` key is always bound to `True`, `"status_code"` is present only on
the HTTP-status path. -/
def ErrRecord.toJson (r : ErrRecord) : Json :=
  Json.obj
    ([("error", Json.bool true)]
      ++ (match r.status_code with
          | some c => [("status_code", Json.num c)]
          | none => [])
      ++ [("message", Json.str r.message)])

/-- The value `make_intervals_request` returns: either a parsed JSON payload
passed through from the API, or an error record the client constructed.  The
Python function returns plain dicts in both cases; `ReqValue.toJson` is that
collapse, and the tag records which path produced the value. -/
inductive ReqValue where
  | payload : Json → ReqValue
  | errRecord : ErrRecord → ReqValue

def ReqValue.toJson : ReqValue → Json
  | .payload j => j
  | .errRecord r => r.toJson

/-- `_handle_http_status_error` from `api/client.py`: error dict with the
numeric status code and the table-driven message. -/
def _handle_http_status_error (status : Nat) (text : String) : ErrRecord :=
  ⟨some status, _get_error_message status text⟩

/-- `_parse_response` from `api/client.py` plus the `raise_for_status` it
performs: the body is decoded first (`response.json() if response.content
else {}`); a decode failure returns the invalid-JSON error record before any
status check; otherwise a non-2xx status raises `HTTPStatusError`, modelled
as `Except.error (status, text)`. -/
def _parse_response (r : HttpResponse) : Except (Nat × String) ReqValue :=
  match r.body with
  | .invalid => .ok (.errRecord ⟨none, "Invalid JSON in response"⟩)
  | .empty =>
    if is2xx r.status then .ok (.payload (Json.obj [])) else .error (r.status, r.text)
  | .json v =>
    if is2xx r.status then .ok (.payload v) else .error (r.status, r.text)

/-- `_parse_response` with the `HTTPStatusError` it raises routed through the
`except httpx.HTTPStatusError` handler of `make_intervals_request`, i.e.
`_handle_http_status_error`. -/
def parseOrStatus (r : HttpResponse) : ReqValue :=
  match _parse_response r with
  | .ok v => v
  | .error (code, text) => .errRecord (_handle_http_status_error code text)

/-- A fault raised by `client.request(...)` (or while reading the response):
an `httpx.RequestError`, another `httpx.HTTPError`, or a `RuntimeError`
(httpx raises `RuntimeError("Cannot send a request, as the client has been
closed.")` on a closed client). -/
inductive SendFault where
  | requestError : String → SendFault
  | httpError : String → SendFault
  | runtimeError : String → SendFault

/-- Outcome of one send attempt: a response, or a raised fault. -/
inductive SendOutcome where
  | ok : HttpResponse → SendOutcome
  | fail : SendFault → SendOutcome

/-- The network oracle for one call to `make_intervals_request`: the outcome
of the first send attempt and, should the retry path run, of the second. -/
structure Transport where
  first : SendOutcome
  second : SendOutcome

/-- The test `"client has been closed" in str(runtime_error).lower()` from
the retry handler in `make_intervals_request`. -/
def isClosedClientMsg (msg : String) : Bool :=
  strContainsSub (strLower msg) "client has been closed"

/-- Whether a fault is the closed-client fault the retry handler recognises:
a `RuntimeError` whose message contains the marker, case-insensitively. -/
def isClosedClientFault : SendFault → Bool
  | .runtimeError m => isClosedClientMsg m
  | _ => false

/-- A shared `httpx.AsyncClient` handle: an identity and its `is_closed`
flag.  `httpx.AsyncClient()` constructs an open client. -/
structure HClient where
  id : Nat
  is_closed : Bool

/-- The mutable state `_get_httpx_client` reads and writes: the
monkeypatchable `server.httpx_client` attribute, the module-level
`httpx_client`, and a supply of fresh client identities. -/
structure ClientState where
  serverClient : Option HClient
  moduleClient : Option HClient
  nextId : Nat

/-- The module-client half of `_get_httpx_client`: reuse the module-level
client when it exists and is open, else construct a fresh open client and
store it. -/
def getModuleClient (s : ClientState) : HClient × ClientState :=
  match s.moduleClient with
  | some c =>
    if c.is_closed then
      let fresh : HClient := ⟨s.nextId, false⟩
      (fresh, { s with moduleClient := some fresh, nextId := s.nextId + 1 })
    else (c, s)
  | none =>
    let fresh : HClient := ⟨s.nextId, false⟩
    (fresh, { s with moduleClient := some fresh, nextId := s.nextId + 1 })

/-- `_get_httpx_client` from `api/client.py`: return `server.httpx_client`
when that attribute holds a non-`None`, open client; otherwise reuse or
lazily (re)create the module-level client. -/
def _get_httpx_client (s : ClientState) : HClient × ClientState :=
  match s.serverClient with
  | some c => if c.is_closed then getModuleClient s else (c, s)
  | none => getModuleClient s

/-- What a call to `make_intervals_request` produced: the returned value (or,
as `Except.error`, the message of an exception that propagated to the
caller), how many send attempts were issued, whether the shared client was
discarded and the retry path taken, and the final client state. -/
structure ReqOutcome where
  result : Except String ReqValue
  sendCount : Nat
  recreated : Bool
  finalState : ClientState

/-- The outer `except` clauses of `make_intervals_request`:
`httpx.RequestError` and other `httpx.HTTPError` faults become error
records; a `RuntimeError` is not an `httpx.HTTPError`, so it is caught by no
clause and propagates. -/
def handleFaultOuter (f : SendFault) : Except String ReqValue :=
  match f with
  | .requestError m => .ok (.errRecord ⟨none, "Request error: " ++ m⟩)
  | .httpError m => .ok (.errRecord ⟨none, "HTTP client error: " ++ m⟩)
  | .runtimeError m => .error m

/-- `make_intervals_request` from `api/client.py`.  Configuration is checked
first; a missing key returns an error record with no send.  Otherwise the
shared client is fetched and the request sent.  A `RuntimeError` from the
first send whose message marks the closed-client fault clears the module
client (`httpx_client = None`), refetches via `_get_httpx_client`, and
re-sends exactly once; any other `RuntimeError` is re-raised.  Faults
escaping the inner handler meet the outer `except` clauses
(`handleFaultOuter`); a delivered response goes through `_parse_response`
and, on a raised `HTTPStatusError`, `_handle_http_status_error`
(`parseOrStatus`).  The query params and body do not influence this control
flow and are omitted. -/
def make_intervals_request (cfg : Config) (url : String) (api_key : Option String)
    (method : String) (t : Transport) (s : ClientState) : ReqOutcome :=
  match (_prepare_request_config cfg url api_key method).2.2.2 with
  | some errMsg => ⟨.ok (.errRecord ⟨none, errMsg⟩), 0, false, s⟩
  | none =>
    let s1 := (_get_httpx_client s).2
    match t.first with
    | .ok resp => ⟨.ok (parseOrStatus resp), 1, false, s1⟩
    | .fail f =>
      match f with
      | .runtimeError m =>
        if isClosedClientMsg m then
          let s2 : ClientState := { s1 with moduleClient := none }
          let s3 := (_get_httpx_client s2).2
          match t.second with
          | .ok resp => ⟨.ok (parseOrStatus resp), 2, true, s3⟩
          | .fail f2 => ⟨handleFaultOuter f2, 2, true, s3⟩
        else ⟨.error m, 1, false, s1⟩
      | .requestError m => ⟨.ok (.errRecord ⟨none, "Request error: " ++ m⟩), 1, false, s1⟩
      | .httpError m => ⟨.ok (.errRecord ⟨none, "HTTP client error: " ++ m⟩), 1, false, s1⟩

/-- `result.get("message", "Unknown error")` rendered by an f-string, as all
the event handlers do with an error record. -/
def getMessage (kvs : List (String × Json)) : String :=
  match jlookup "message" kvs with
  | some v => pyStr v
  | none => "Unknown error"

/-- The keyword table of `_resolve_workout_type` in `tools/events.py`, in
source order: the first group with a matching keyword wins. -/
def workoutMapping : List (String × List String) :=
  [("Ride", ["bike", "cycle", "cycling", "ride"]),
   ("Run", ["run", "running", "jog", "jogging"]),
   ("Swim", ["swim", "swimming", "pool"]),
   ("Walk", ["walk", "walking", "hike", "hiking"]),
   ("Row", ["row", "rowing"])]

/-- The `for workout, keywords in mapping` loop of `_resolve_workout_type`:
return the first workout one of whose keywords is a substring of the
lowercased name. -/
def matchWorkout (name_lower : String) : List (String × List String) → Option String
  | [] => none
  | (workout, keywords) :: rest =>
    if keywords.any (fun kw => strContainsSub name_lower kw) then some workout
    else matchWorkout name_lower rest

/-- `_resolve_workout_type` from `tools/events.py`: a truthy explicit type is
returned unchanged; else the name (lowercased; missing name reads as the
empty string) is matched against the keyword table, defaulting to
`"Ride"`. -/
def _resolve_workout_type (name : Option String) (workout_type : Option String) : String :=
  if pyFalsyOptStr workout_type then
    let name_lower := strLower (name.getD "")
    (matchWorkout name_lower workoutMapping).getD "Ride"
  else workout_type.getD ""

/-- `_handle_event_response` from `tools/events.py`: a dict carrying the
`"error"` key (presence, not truth) becomes an error string; a falsy result
becomes the no-events string; any other dict is serialised into the success
string; a non-dict truthy result gets the date-stamped string. -/
def _handle_event_response (result : Option Json) (action : String)
    (athlete_id : String) (start_date : String) : String :=
  match result with
  | some (Json.obj kvs) =>
    if hasKey "error" kvs then
      "Error " ++ action ++ " event: " ++ getMessage kvs
    else if kvs.isEmpty then
      "No events " ++ action ++ " for athlete " ++ athlete_id ++ "."
    else
      "Successfully " ++ action ++ " event: " ++ jsonDumps (Json.obj kvs)
  | some v =>
    if v.pyFalsy then "No events " ++ action ++ " for athlete " ++ athlete_id ++ "."
    else "Event " ++ action ++ " successfully at " ++ start_date
  | none => "No events " ++ action ++ " for athlete " ++ athlete_id ++ "."

/-- The URL and method `_create_or_update_event_request` in
`tools/events.py` builds: `/athlete/{athlete_id}/events`, extended with
`/{event_id}` and switched from POST to PUT when a truthy event ID is
supplied. -/
structure EventRequestPlan where
  url : String
  method : String
deriving DecidableEq

def eventRequestPlan (athlete_id : String) (event_id : Option String) : EventRequestPlan :=
  let url := "/athlete/" ++ athlete_id ++ "/events"
  if pyFalsyOptStr event_id then ⟨url, "POST"⟩
  else ⟨url ++ "/" ++ event_id.getD "", "PUT"⟩

/-- `_create_or_update_event_request` from `tools/events.py` (present in the
source at the cited lines, currently disabled by commenting): issue the
planned request through `make_intervals_request` and format the reply with
`_handle_event_response`, `action` being `"updated"` for a truthy event ID
and `"created"` otherwise.  The event payload does not influence the parts
under verification and is omitted. -/
def _create_or_update_event_request (cfg : Config) (athlete_id : String)
    (api_key : Option String) (start_date : String) (event_id : Option String)
    (t : Transport) (s : ClientState) : Except String String :=
  let plan := eventRequestPlan athlete_id event_id
  let o := make_intervals_request cfg plan.url api_key plan.method t s
  let action := if pyFalsyOptStr event_id then "created" else "updated"
  match o.result with
  | .ok v => .ok (_handle_event_response (some v.toJson) action athlete_id start_date)
  | .error e => .error e

/-- Modelled from the spec: `format_event_summary` (`utils/formatting.py` is
not in the source tree) — a pure text block over the event mapping,
substituting "N/A" for missing optional fields. -/
def format_event_summary (kvs : List (String × Json)) : String :=
  let field := fun (k : String) =>
    match jlookup k kvs with
    | some v => pyStr v
    | none => "N/A"
  "Event: " ++ field "name" ++ "\nDate: " ++ field "start_date_local"
    ++ "\nID: " ++ field "id"

/-- Modelled from the spec: `format_event_details` (`utils/formatting.py` is
not in the source tree) — a pure text block over the event mapping,
substituting "N/A" for missing optional fields. -/
def format_event_details (kvs : List (String × Json)) : String :=
  let field := fun (k : String) =>
    match jlookup k kvs with
    | some v => pyStr v
    | none => "N/A"
  "Event Details:\n\nName: " ++ field "name" ++ "\nDate: " ++ field "start_date_local"
    ++ "\nDescription: " ++ field "description" ++ "\nType: " ++ field "type"

/-- The event loop of `get_events`: one summary block per dict element,
non-dict elements skipped. -/
def eventSummaries : List Json → String
  | [] => ""
  | (Json.obj kvs) :: rest => format_event_summary kvs ++ "\n\n" ++ eventSummaries rest
  | _ :: rest => eventSummaries rest

/-- The response-processing tail of `get_events` in `tools/events.py` (after
`make_intervals_request` returns `result`): an `"error"`-keyed dict becomes
the error string; a falsy result, a non-list, or an empty list becomes the
no-events string; a non-empty list becomes the "Events:" header followed by
the summaries. -/
def get_events_formatResult (athlete_id_to_use : String) (result : Json) : String :=
  let noEvents :=
    "No events found for athlete " ++ athlete_id_to_use ++ " in the specified date range."
  match result with
  | Json.obj kvs =>
    if hasKey "error" kvs then "Error fetching events: " ++ getMessage kvs
    else noEvents
  | Json.arr events =>
    if events.isEmpty then noEvents
    else "Events:\n\n" ++ eventSummaries events
  | other =>
    let _ := other
    noEvents

/-- The response-processing tail of `get_event_by_id` in `tools/events.py`:
an `"error"`-keyed dict becomes the error string; a falsy result the
no-details string; a truthy non-dict the invalid-format string; otherwise
the formatted details. -/
def get_event_by_id_formatResult (event_id : String) (result : Json) : String :=
  match result with
  | Json.obj kvs =>
    if hasKey "error" kvs then "Error fetching event details: " ++ getMessage kvs
    else if kvs.isEmpty then "No details found for event " ++ event_id ++ "."
    else format_event_details kvs
  | other =>
    if other.pyFalsy then "No details found for event " ++ event_id ++ "."
    else "Invalid event format for event " ++ event_id ++ "."

/-- Key lookup through a JSON value: `None` off an object. -/
def jget (j : Json) (k : String) : Option Json :=
  match j with
  | .obj kvs => jlookup k kvs
  | _ => none

/-! Concrete fixtures used by witnesses and counterexamples. -/

/-- A configuration with no default API key. -/
def cfgNoDefault : Config :=
  ⟨none, some "i1", "https://intervals.icu/api/v1", "intervals-mcp"⟩

/-- A configuration with a usable default API key. -/
def cfgWithKey : Config :=
  ⟨some "secret", some "i1", "https://intervals.icu/api/v1", "intervals-mcp"⟩

/-- Initial client state: no server override, no module client yet. -/
def cs0 : ClientState := ⟨none, none, 0⟩

/-- A successful empty 200 response. -/
def respOk : HttpResponse := ⟨200, .empty, ""⟩

/-- A transport on which both attempts deliver `respOk`. -/
def tOk : Transport := ⟨.ok respOk, .ok respOk⟩

/-! Claim theorems. -/

/-- C1: calling `make_intervals_request` with no explicit API key while the
configured default is absent (or empty) returns the "API key is required"
error record with zero send attempts; and an explicitly supplied key is the
one resolved and placed in the Basic-Auth credentials, whatever the
configured default holds. -/
theorem make_intervals_request_missing_key (cfg : Config) (url method : String)
    (t : Transport) (s : ClientState)
    (hdef : pyFalsyOptStr cfg.api_key = true) :
    (make_intervals_request cfg url none method t s).result
        = .ok (.errRecord ⟨none, "API key is required. Set API_KEY env var or pass api_key"⟩)
      ∧ (make_intervals_request cfg url none method t s).sendCount = 0
      ∧ strContainsSub "API key is required. Set API_KEY env var or pass api_key"
          "API key is required" = true
      ∧ (∀ k : String, key_to_use (some k) cfg = some k)
      ∧ (∀ k : String, k ≠ "" →
          (_prepare_request_config cfg url (some k) method).2.1
            = BasicAuth.mk "API_KEY" k) := by
  refine ⟨?_, ?_, by decide, fun k => rfl, ?_⟩
  · unfold make_intervals_request
    simp [_prepare_request_config, key_to_use, hdef]
  · unfold make_intervals_request
    simp [_prepare_request_config, key_to_use, hdef]
  · intro k hk
    have hke : k.isEmpty = false := by
      rcases h : k.isEmpty with _ | _
      · rfl
      · exact absurd (String.isEmpty_iff k |>.mp h) hk
    simp [_prepare_request_config, key_to_use, pyFalsyOptStr, hke]

/-- Witness for C1 at a concrete key-less configuration. -/
theorem make_intervals_request_missing_key_witness :
    (make_intervals_request cfgNoDefault "/x" none "GET" tOk cs0).sendCount = 0
      ∧ (make_intervals_request cfgNoDefault "/x" none "GET" tOk cs0).result
        = .ok (.errRecord ⟨none, "API key is required. Set API_KEY env var or pass api_key"⟩) :=
  ⟨(make_intervals_request_missing_key cfgNoDefault "/x" "GET" tOk cs0 rfl).2.1,
   (make_intervals_request_missing_key cfgNoDefault "/x" "GET" tOk cs0 rfl).1⟩

/-- C9: every handle `_get_httpx_client` hands out is open: a present client
is returned only after its `is_closed` flag tested false, and otherwise a
freshly constructed (open) client replaces the shared one wholesale. -/
theorem get_httpx_client_returns_open (s : ClientState) :
    ((_get_httpx_client s).1).is_closed = false := by
  have hmod : ((getModuleClient s).1).is_closed = false := by
    unfold getModuleClient
    rcases h : s.moduleClient with _ | c
    · rfl
    · rcases hc : c.is_closed with _ | _ <;> simp [hc]
  unfold _get_httpx_client
  rcases h : s.serverClient with _ | c
  · exact hmod
  · rcases hc : c.is_closed with _ | _ <;> simp [hc, hmod]

/-- C8: `_resolve_workout_type` returns a non-empty explicit type unchanged;
a name whose lowercase form contains a swim keyword while containing none of
the ride or run keywords (the groups checked earlier) resolves to "Swim" —
in particular "Morning Swim" with no explicit type; and a name (or a missing
name) matching no keyword of any group resolves to "Ride". -/
theorem resolve_workout_type_spec :
    (∀ name wt, wt ≠ "" → _resolve_workout_type name (some wt) = wt)
  ∧ (∀ name : String,
      (strContainsSub (strLower name) "swim" = true
        ∨ strContainsSub (strLower name) "swimming" = true
        ∨ strContainsSub (strLower name) "pool" = true) →
      (∀ kw ∈ ["bike", "cycle", "cycling", "ride"],
        strContainsSub (strLower name) kw = false) →
      (∀ kw ∈ ["run", "running", "jog", "jogging"],
        strContainsSub (strLower name) kw = false) →
      _resolve_workout_type (some name) none = "Swim")
  ∧ _resolve_workout_type (some "Morning Swim") none = "Swim"
  ∧ (∀ name : Option String,
      (∀ kw ∈ ["bike", "cycle", "cycling", "ride", "run", "running", "jog", "jogging",
               "swim", "swimming", "pool", "walk", "walking", "hike", "hiking",
               "row", "rowing"],
        strContainsSub (strLower (name.getD "")) kw = false) →
      _resolve_workout_type name none = "Ride") := by
  refine ⟨?_, ?_, by decide, ?_⟩
  · intro name wt hwt
    have hke : wt.isEmpty = false := by
      rcases h : wt.isEmpty with _ | _
      · rfl
      · exact absurd (String.isEmpty_iff wt |>.mp h) hwt
    simp [_resolve_workout_type, pyFalsyOptStr, hke]
  · intro name hswim hride hrun
    have hb := hride "bike" (by simp)
    have hc := hride "cycle" (by simp)
    have hcy := hride "cycling" (by simp)
    have hr := hride "ride" (by simp)
    have hru := hrun "run" (by simp)
    have hrn := hrun "running" (by simp)
    have hj := hrun "jog" (by simp)
    have hjg := hrun "jogging" (by simp)
    rcases hswim with h | h | h <;>
      simp [_resolve_workout_type, pyFalsyOptStr, matchWorkout, workoutMapping,
        hb, hc, hcy, hr, hru, hrn, hj, hjg, h]
  · intro name hall
    have h1 := hall "bike" (by simp)
    have h2 := hall "cycle" (by simp)
    have h3 := hall "cycling" (by simp)
    have h4 := hall "ride" (by simp)
    have h5 := hall "run" (by simp)
    have h6 := hall "running" (by simp)
    have h7 := hall "jog" (by simp)
    have h8 := hall "jogging" (by simp)
    have h9 := hall "swim" (by simp)
    have h10 := hall "swimming" (by simp)
    have h11 := hall "pool" (by simp)
    have h12 := hall "walk" (by simp)
    have h13 := hall "walking" (by simp)
    have h14 := hall "hike" (by simp)
    have h15 := hall "hiking" (by simp)
    have h16 := hall "row" (by simp)
    have h17 := hall "rowing" (by simp)
    simp [_resolve_workout_type, pyFalsyOptStr, matchWorkout, workoutMapping,
      h1, h2, h3, h4, h5, h6, h7, h8, h9, h10, h11, h12, h13, h14, h15, h16, h17]

/-- C3: response parsing in `make_intervals_request`: an empty body parses
to the empty object (delivered as the payload when the status is 2xx); a
non-empty body that fails JSON decoding yields the "Invalid JSON in
response" error record for every status code — carrying no `status_code`
field and no table message — because decoding is checked before the status;
and only an empty or decodable body lets a non-2xx status produce the
protocol error record. -/
theorem parse_response_spec (r : HttpResponse) (v : Json) (cfg : Config)
    (url : String) (key : Option String) (method : String) (t : Transport)
    (s : ClientState) :
    (r.body = .empty → is2xx r.status = true →
      parseOrStatus r = .payload (Json.obj []))
  ∧ (r.body = .invalid →
      parseOrStatus r = .errRecord ⟨none, "Invalid JSON in response"⟩)
  ∧ jget (ErrRecord.toJson ⟨none, "Invalid JSON in response"⟩) "status_code" = none
  ∧ ((r.body = .empty ∨ r.body = .json v) → is2xx r.status = false →
      parseOrStatus r = .errRecord ⟨some r.status, _get_error_message r.status r.text⟩)
  ∧ (pyFalsyOptStr (key_to_use key cfg) = false → t.first = .ok r →
      (make_intervals_request cfg url key method t s).result
        = .ok (parseOrStatus r)) := by
  refine ⟨?_, ?_, rfl, ?_, ?_⟩
  · intro hb h2
    simp [parseOrStatus, _parse_response, hb, h2]
  · intro hb
    simp [parseOrStatus, _parse_response, hb]
  · rintro (hb | hb) h2 <;>
      simp [parseOrStatus, _parse_response, _handle_http_status_error, hb, h2]
  · intro hkey hfirst
    unfold make_intervals_request
    simp [_prepare_request_config, hkey, hfirst]

/-- Witness for C3: the four guarded clauses at concrete responses. -/
theorem parse_response_spec_witness :
    parseOrStatus ⟨200, .empty, ""⟩ = .payload (Json.obj [])
  ∧ parseOrStatus ⟨200, .invalid, "oops"⟩
      = .errRecord ⟨none, "Invalid JSON in response"⟩
  ∧ parseOrStatus ⟨404, .empty, "nf"⟩
      = .errRecord ⟨some 404, _get_error_message 404 "nf"⟩
  ∧ (make_intervals_request cfgWithKey "/x" none "GET" tOk cs0).result
      = .ok (parseOrStatus respOk) :=
  ⟨(parse_response_spec ⟨200, .empty, ""⟩ Json.null cfgWithKey "/x" none "GET" tOk cs0).1
      rfl (by decide),
   (parse_response_spec ⟨200, .invalid, "oops"⟩ Json.null cfgWithKey "/x" none "GET"
      tOk cs0).2.1 rfl,
   (parse_response_spec ⟨404, .empty, "nf"⟩ Json.null cfgWithKey "/x" none "GET"
      tOk cs0).2.2.2.1 (Or.inl rfl) (by decide),
   (parse_response_spec respOk Json.null cfgWithKey "/x" none "GET" tOk
      cs0).2.2.2.2 (by decide) rfl⟩

/-- C6: a non-2xx response whose body is empty or decodes yields the error
record with the numeric status code and the table-driven message: 401
mentions the API key, 403 permission, 404 the missing endpoint/ID, 422
invalid parameters, 429 too many requests, 500 an internal server error,
503 maintenance/down; every status outside the table falls back to the raw
response text. -/
theorem get_error_message_table_spec (status : Nat) (text : String)
    (r : HttpResponse) (v : Json) :
    ((r.body = .empty ∨ r.body = .json v) → is2xx r.status = false →
      parseOrStatus r = .errRecord ⟨some r.status, _get_error_message r.status r.text⟩)
  ∧ strContainsSub (_get_error_message 401 text) "API key" = true
  ∧ strContainsSub (_get_error_message 403 text) "permission" = true
  ∧ strContainsSub (_get_error_message 404 text) "endpoint or ID doesn't exist" = true
  ∧ strContainsSub (_get_error_message 422 text) "invalid parameters" = true
  ∧ strContainsSub (_get_error_message 429 text) "Too many requests" = true
  ∧ strContainsSub (_get_error_message 500 text) "internal error" = true
  ∧ strContainsSub (_get_error_message 503 text) "down or undergoing maintenance" = true
  ∧ (status ≠ 401 → status ≠ 403 → status ≠ 404 → status ≠ 422 → status ≠ 429 →
      status ≠ 500 → status ≠ 503 → _get_error_message status text = text) := by
  refine ⟨?_, ?_, ?_, ?_, ?_, ?_, ?_, ?_, ?_⟩
  · rintro (hb | hb) h2 <;>
      simp [parseOrStatus, _parse_response, _handle_http_status_error, hb, h2]
  · show strContainsSub "401 Unauthorized: Please check your API key." "API key" = true
    decide
  · show strContainsSub
      "403 Forbidden: You may not have permission to access this resource."
      "permission" = true
    decide
  · show strContainsSub
      "404 Not Found: The requested endpoint or ID doesn't exist."
      "endpoint or ID doesn't exist" = true
    decide
  · show strContainsSub
      "422 Unprocessable Entity: The server couldn't process the request (invalid parameters or unsupported operation)."
      "invalid parameters" = true
    decide
  · show strContainsSub
      "429 Too Many Requests: Too many requests in a short time period."
      "Too many requests" = true
    decide
  · show strContainsSub
      "500 Internal Server Error: The Intervals.icu server encountered an internal error."
      "internal error" = true
    decide
  · show strContainsSub
      "503 Service Unavailable: The Intervals.icu server might be down or undergoing maintenance."
      "down or undergoing maintenance" = true
    decide
  · intro h1 h2 h3 h4 h5 h6 h7
    simp [_get_error_message, h1, h2, h3, h4, h5, h6, h7]

/-- Witness for C6: a 401 and an unmapped 418 at concrete inputs. -/
theorem get_error_message_table_spec_witness :
    parseOrStatus ⟨401, .empty, ""⟩
      = .errRecord ⟨some 401, _get_error_message 401 ""⟩
  ∧ _get_error_message 418 "teapot" = "teapot" :=
  ⟨(get_error_message_table_spec 418 "teapot" ⟨401, .empty, ""⟩ Json.null).1
      (Or.inl rfl) (by decide),
   (get_error_message_table_spec 418 "teapot" ⟨401, .empty, ""⟩ Json.null).2.2.2.2.2.2.2.2
      (by decide) (by decide) (by decide) (by decide) (by decide) (by decide) (by decide)⟩

/-- C4: a first send failing with the closed-client fault (a `RuntimeError`
whose message contains "client has been closed" case-insensitively) makes
`make_intervals_request` discard and recreate the shared client and re-send
exactly once — two send attempts in all — and a successful retried send
hands the caller the normal parsed payload; a first-send fault of any other
class is never retried: exactly one send is attempted and the fault
surfaces immediately through the outer handlers. -/
theorem make_intervals_request_retry_spec (cfg : Config) (url : String)
    (key : Option String) (method : String) (s : ClientState) (m : String)
    (resp : HttpResponse) (v : Json)
    (hkey : pyFalsyOptStr (key_to_use key cfg) = false)
    (hm : isClosedClientMsg m = true) :
    ((make_intervals_request cfg url key method
        ⟨.fail (.runtimeError m), .ok resp⟩ s).sendCount = 2
      ∧ (make_intervals_request cfg url key method
          ⟨.fail (.runtimeError m), .ok resp⟩ s).recreated = true
      ∧ (is2xx resp.status = true → resp.body = .json v →
          (make_intervals_request cfg url key method
            ⟨.fail (.runtimeError m), .ok resp⟩ s).result = .ok (.payload v)))
  ∧ (∀ f t2, isClosedClientFault f = false →
      (make_intervals_request cfg url key method ⟨.fail f, t2⟩ s).sendCount = 1
        ∧ (make_intervals_request cfg url key method ⟨.fail f, t2⟩ s).recreated = false
        ∧ (make_intervals_request cfg url key method ⟨.fail f, t2⟩ s).result
            = handleFaultOuter f) := by
  constructor
  · refine ⟨?_, ?_, ?_⟩
    · unfold make_intervals_request
      simp [_prepare_request_config, hkey, hm]
    · unfold make_intervals_request
      simp [_prepare_request_config, hkey, hm]
    · intro h2 hb
      unfold make_intervals_request
      simp [_prepare_request_config, hkey, hm, parseOrStatus, _parse_response, hb, h2]
  · intro f t2 hf
    cases f with
    | requestError msg =>
      refine ⟨?_, ?_, ?_⟩ <;>
        · unfold make_intervals_request
          simp [_prepare_request_config, hkey, handleFaultOuter]
    | httpError msg =>
      refine ⟨?_, ?_, ?_⟩ <;>
        · unfold make_intervals_request
          simp [_prepare_request_config, hkey, handleFaultOuter]
    | runtimeError msg =>
      have hmsg : isClosedClientMsg msg = false := by
        simpa [isClosedClientFault] using hf
      refine ⟨?_, ?_, ?_⟩ <;>
        · unfold make_intervals_request
          simp [_prepare_request_config, hkey, hmsg, handleFaultOuter]

/-- Witness for C4: a concrete closed-client fault followed by a successful
200 retry, and a non-retried request error. -/
theorem make_intervals_request_retry_spec_witness :
    (make_intervals_request cfgWithKey "/x" none "GET"
        ⟨.fail (.runtimeError "Cannot send a request, as the client has been closed."),
         .ok ⟨200, .json (Json.obj [("id", Json.str "e1")]), "ok"⟩⟩ cs0).result
      = .ok (.payload (Json.obj [("id", Json.str "e1")]))
  ∧ (make_intervals_request cfgWithKey "/x" none "GET"
        ⟨.fail (.requestError "timeout"), tOk.second⟩ cs0).sendCount = 1 :=
  ⟨((make_intervals_request_retry_spec cfgWithKey "/x" none "GET" cs0
      "Cannot send a request, as the client has been closed."
      ⟨200, .json (Json.obj [("id", Json.str "e1")]), "ok"⟩
      (Json.obj [("id", Json.str "e1")]) (by decide) (by decide)).1.2.2
      (by decide) rfl),
   ((make_intervals_request_retry_spec cfgWithKey "/x" none "GET" cs0
      "Cannot send a request, as the client has been closed."
      ⟨200, .json (Json.obj [("id", Json.str "e1")]), "ok"⟩
      (Json.obj [("id", Json.str "e1")]) (by decide) (by decide)).2
      (.requestError "timeout") tOk.second (by decide)).1⟩

/-- A non-empty prefix keeps an appended string non-empty. -/
theorem prefix_append_ne_empty (p s : String) (hp : p.data ≠ []) : p ++ s ≠ "" := by
  intro hcontra
  apply hp
  have hdata := congrArg String.data hcontra
  rw [String.data_append] at hdata
  exact (List.append_eq_nil.mp hdata).1

/-- `_prepare_request_config` reports either no error or exactly the
missing-key message. -/
theorem prepare_error_shape (cfg : Config) (url : String) (api_key : Option String)
    (method : String) :
    (_prepare_request_config cfg url api_key method).2.2.2 = none
    ∨ (_prepare_request_config cfg url api_key method).2.2.2
        = some "API key is required. Set API_KEY env var or pass api_key" := by
  by_cases h : pyFalsyOptStr (key_to_use api_key cfg) = true
  · right; simp [_prepare_request_config, h]
  · left
    simp only [Bool.not_eq_true] at h
    simp [_prepare_request_config, h]

/-- `parseOrStatus` yields a payload, the invalid-JSON record, or the
status record for the response's own status and text. -/
theorem parseOrStatus_shape (resp : HttpResponse) :
    (∃ j, parseOrStatus resp = .payload j)
    ∨ parseOrStatus resp = .errRecord ⟨none, "Invalid JSON in response"⟩
    ∨ parseOrStatus resp
        = .errRecord ⟨some resp.status, _get_error_message resp.status resp.text⟩ := by
  unfold parseOrStatus _parse_response
  rcases hb : resp.body with _ | v | _
  · by_cases h2 : is2xx resp.status = true
    · exact Or.inl ⟨Json.obj [], by simp [h2]⟩
    · simp only [Bool.not_eq_true] at h2
      simp [h2, _handle_http_status_error]
  · by_cases h2 : is2xx resp.status = true
    · exact Or.inl ⟨v, by simp [h2]⟩
    · simp only [Bool.not_eq_true] at h2
      simp [h2, _handle_http_status_error]
  · simp

/-- Every result of `make_intervals_request` is the missing-key record, the
parse of some delivered response, a request-error record, an
HTTP-client-error record, or a propagated exception. -/
theorem make_intervals_request_result_shape (cfg : Config) (url : String)
    (key : Option String) (method : String) (t : Transport) (s : ClientState) :
    (make_intervals_request cfg url key method t s).result
        = .ok (.errRecord ⟨none, "API key is required. Set API_KEY env var or pass api_key"⟩)
    ∨ (∃ resp : HttpResponse, (make_intervals_request cfg url key method t s).result
        = .ok (parseOrStatus resp))
    ∨ (∃ m, (make_intervals_request cfg url key method t s).result
        = .ok (.errRecord ⟨none, "Request error: " ++ m⟩))
    ∨ (∃ m, (make_intervals_request cfg url key method t s).result
        = .ok (.errRecord ⟨none, "HTTP client error: " ++ m⟩))
    ∨ (∃ e, (make_intervals_request cfg url key method t s).result = .error e) := by
  unfold make_intervals_request
  rcases prepare_error_shape cfg url key method with hp | hp <;> rw [hp]
  · cases ht : t.first with
    | ok resp => exact Or.inr (Or.inl ⟨resp, rfl⟩)
    | fail f =>
      cases f with
      | requestError m => exact Or.inr (Or.inr (Or.inl ⟨m, rfl⟩))
      | httpError m => exact Or.inr (Or.inr (Or.inr (Or.inl ⟨m, rfl⟩)))
      | runtimeError m =>
        by_cases hm : isClosedClientMsg m = true
        · simp only [hm, if_true]
          cases ht2 : t.second with
          | ok resp => exact Or.inr (Or.inl ⟨resp, rfl⟩)
          | fail f2 =>
            cases f2 with
            | requestError m2 =>
              exact Or.inr (Or.inr (Or.inl ⟨m2, rfl⟩))
            | httpError m2 =>
              exact Or.inr (Or.inr (Or.inr (Or.inl ⟨m2, rfl⟩)))
            | runtimeError m2 =>
              exact Or.inr (Or.inr (Or.inr (Or.inr ⟨m2, rfl⟩)))
        · simp only [Bool.not_eq_true] at hm
          simp only [hm, if_false, Bool.false_eq_true]
          exact Or.inr (Or.inr (Or.inr (Or.inr ⟨m, rfl⟩)))
  · exact Or.inl rfl

/-- The error dict always binds `"error"` to `True`. -/
theorem errRecord_error_true (r : ErrRecord) :
    jget r.toJson "error" = some (Json.bool true) := by
  rcases r with ⟨sc, msg⟩
  cases sc <;> rfl

/-- Counterexample for C2: a `RuntimeError` whose message ("boom") is not
the closed-client fault is re-raised inside `make_intervals_request`, and
the outer handlers catch only httpx error classes, so the exception escapes
to the caller instead of being returned as a normalized error record. -/
theorem runtime_error_escapes_counterexample :
    (make_intervals_request cfgWithKey "/x" none "GET"
        ⟨.fail (.runtimeError "boom"), .ok respOk⟩ cs0).result
      = Except.error "boom" := rfl

/-- C2 (amended): every fault of the httpx exception hierarchy — request
errors, other HTTP client errors, and the non-2xx status error — is
returned to the calling handler as a normalized error record; the only
faults that propagate out of `make_intervals_request` as exceptions are a
first-send `RuntimeError` that is not the closed-client fault, and a
`RuntimeError` raised by the single retried send after a closed-client
fault. -/
theorem make_intervals_request_exception_paths (cfg : Config) (url : String)
    (key : Option String) (method : String) (t : Transport) (s : ClientState)
    (e : String)
    (h : (make_intervals_request cfg url key method t s).result = .error e) :
    (t.first = .fail (.runtimeError e) ∧ isClosedClientMsg e = false)
    ∨ (∃ m, t.first = .fail (.runtimeError m) ∧ isClosedClientMsg m = true
        ∧ t.second = .fail (.runtimeError e)) := by
  unfold make_intervals_request at h
  rcases prepare_error_shape cfg url key method with hp | hp <;> rw [hp] at h
  · cases ht : t.first with
    | ok resp => rw [ht] at h; exact absurd h (by simp)
    | fail f =>
      rw [ht] at h
      cases f with
      | requestError m => exact absurd h (by simp)
      | httpError m => exact absurd h (by simp)
      | runtimeError m =>
        dsimp only at h
        by_cases hm : isClosedClientMsg m = true
        · rw [if_pos hm] at h
          cases ht2 : t.second with
          | ok resp => rw [ht2] at h; exact absurd h (by simp)
          | fail f2 =>
            rw [ht2] at h
            cases f2 with
            | requestError m2 => exact absurd h (by simp [handleFaultOuter])
            | httpError m2 => exact absurd h (by simp [handleFaultOuter])
            | runtimeError m2 =>
              simp only [handleFaultOuter, Except.error.injEq] at h
              exact Or.inr ⟨m, rfl, hm, by rw [h]⟩
        · simp only [Bool.not_eq_true] at hm
          rw [if_neg (by simp [hm])] at h
          simp only [Except.error.injEq] at h
          exact Or.inl ⟨by rw [h], by rw [← h]; exact hm⟩
  · exact absurd h (by simp)

/-- Witness for C2 (amended) at a concrete escaping fault. -/
theorem make_intervals_request_exception_paths_witness :
    (Transport.mk (.fail (.runtimeError "boom")) (.ok respOk)).first
        = .fail (.runtimeError "boom") ∧ isClosedClientMsg "boom" = false
    ∨ (∃ m, (Transport.mk (.fail (.runtimeError "boom")) (.ok respOk)).first
          = .fail (.runtimeError m) ∧ isClosedClientMsg m = true
          ∧ (Transport.mk (.fail (.runtimeError "boom")) (.ok respOk)).second
            = .fail (.runtimeError "boom")) :=
  make_intervals_request_exception_paths cfgWithKey "/x" none "GET"
    ⟨.fail (.runtimeError "boom"), .ok respOk⟩ cs0 "boom" rfl

/-- Counterexample for C5: a 418 response (unmapped status) with an empty
body and empty text yields an error record whose message is the empty
string. -/
theorem error_record_empty_message_counterexample :
    (make_intervals_request cfgWithKey "/x" none "GET"
        ⟨.ok ⟨418, .empty, ""⟩, .ok respOk⟩ cs0).result
      = .ok (.errRecord ⟨some 418, ""⟩)
    ∧ (ErrRecord.mk (some 418) "").message = "" :=
  ⟨rfl, rfl⟩

/-- C5 (amended): every error record produced by `make_intervals_request`
binds `"error"` to `True`; its message is non-empty on every path that
carries no `status_code` (missing key, invalid JSON, request error, HTTP
client error), and on the HTTP-status path whenever the code is one of the
seven mapped ones — for an unmapped code the message is the raw response
text, which may be empty. -/
theorem error_records_well_formed (cfg : Config) (url : String)
    (key : Option String) (method : String) (t : Transport) (s : ClientState)
    (r : ErrRecord)
    (h : (make_intervals_request cfg url key method t s).result
        = .ok (.errRecord r)) :
    jget r.toJson "error" = some (Json.bool true)
    ∧ (r.status_code = none → r.message ≠ "")
    ∧ (∀ c, r.status_code = some c →
        (c = 401 ∨ c = 403 ∨ c = 404 ∨ c = 422 ∨ c = 429 ∨ c = 500 ∨ c = 503) →
        r.message ≠ "") := by
  refine ⟨errRecord_error_true r, ?_⟩
  rcases make_intervals_request_result_shape cfg url key method t s with
    hs | ⟨resp, hs⟩ | ⟨m, hs⟩ | ⟨m, hs⟩ | ⟨e, hs⟩
  · rw [h] at hs
    simp only [Except.ok.injEq, ReqValue.errRecord.injEq] at hs
    subst hs
    exact ⟨fun _ => by decide, fun c hc => by simp at hc⟩
  · rw [h] at hs
    rcases parseOrStatus_shape resp with ⟨j, hp⟩ | hp | hp <;> rw [hp] at hs
    · exact absurd hs (by simp)
    · simp only [Except.ok.injEq, ReqValue.errRecord.injEq] at hs
      subst hs
      exact ⟨fun _ => by decide, fun c hc => by simp at hc⟩
    · simp only [Except.ok.injEq, ReqValue.errRecord.injEq] at hs
      subst hs
      refine ⟨by simp, ?_⟩
      intro c hc hmapped
      simp only [ErrRecord.mk.injEq] at hc ⊢
      simp only [Option.some.injEq] at hc
      subst hc
      rcases hmapped with h' | h' | h' | h' | h' | h' | h' <;>
        · rw [h']
          simp [_get_error_message]
  · rw [h] at hs
    simp only [Except.ok.injEq, ReqValue.errRecord.injEq] at hs
    subst hs
    refine ⟨fun _ => prefix_append_ne_empty "Request error: " m (by decide),
      fun c hc => by simp at hc⟩
  · rw [h] at hs
    simp only [Except.ok.injEq, ReqValue.errRecord.injEq] at hs
    subst hs
    refine ⟨fun _ => prefix_append_ne_empty "HTTP client error: " m (by decide),
      fun c hc => by simp at hc⟩
  · rw [h] at hs
    exact absurd hs (by simp)

/-- Witness for C5 (amended) at a concrete request-error record. -/
theorem error_records_well_formed_witness :
    jget (ErrRecord.toJson ⟨none, "Request error: timeout"⟩) "error"
        = some (Json.bool true)
    ∧ ((ErrRecord.mk none "Request error: timeout").status_code = none →
        (ErrRecord.mk none "Request error: timeout").message ≠ "")
    ∧ (∀ c, (ErrRecord.mk none "Request error: timeout").status_code = some c →
        (c = 401 ∨ c = 403 ∨ c = 404 ∨ c = 422 ∨ c = 429 ∨ c = 500 ∨ c = 503) →
        (ErrRecord.mk none "Request error: timeout").message ≠ "") :=
  error_records_well_formed cfgWithKey "/x" none "GET"
    ⟨.fail (.requestError "timeout"), .ok respOk⟩ cs0
    ⟨none, "Request error: timeout"⟩ rfl

/-- C7: `_create_or_update_event_request` with no event ID targets
`/athlete/{athlete_id}/events` with POST and, when the API answers with a
success payload object, yields the string "Successfully created event: ..."
via `_handle_event_response`; with an event ID it targets
`/athlete/{athlete_id}/events/{event_id}` with PUT and yields
"Successfully updated event: ...". -/
theorem add_or_update_event_spec (cfg : Config) (athlete_id start_date : String)
    (key : Option String) (e : String) (kvs : List (String × Json))
    (s : ClientState)
    (hkey : pyFalsyOptStr (key_to_use key cfg) = false)
    (he : e ≠ "") (hkvs : kvs ≠ []) (herr : hasKey "error" kvs = false) :
    eventRequestPlan athlete_id none
        = ⟨"/athlete/" ++ athlete_id ++ "/events", "POST"⟩
  ∧ eventRequestPlan athlete_id (some e)
      = ⟨"/athlete/" ++ athlete_id ++ "/events" ++ "/" ++ e, "PUT"⟩
  ∧ (∀ t : Transport, ∀ resp : HttpResponse, t.first = .ok resp →
      is2xx resp.status = true → resp.body = .json (Json.obj kvs) →
      _create_or_update_event_request cfg athlete_id key start_date none t s
        = .ok ("Successfully created event: " ++ jsonDumps (Json.obj kvs)))
  ∧ (∀ t : Transport, ∀ resp : HttpResponse, t.first = .ok resp →
      is2xx resp.status = true → resp.body = .json (Json.obj kvs) →
      _create_or_update_event_request cfg athlete_id key start_date (some e) t s
        = .ok ("Successfully updated event: " ++ jsonDumps (Json.obj kvs))) := by
  have hee : e.isEmpty = false := by
    rcases hh : e.isEmpty with _ | _
    · rfl
    · exact absurd (String.isEmpty_iff e |>.mp hh) he
  have hkvse : kvs.isEmpty = false := by
    cases kvs with
    | nil => exact absurd rfl hkvs
    | cons a l => rfl
  refine ⟨rfl, ?_, ?_, ?_⟩
  · simp [eventRequestPlan, pyFalsyOptStr, hee]
  · intro t resp hfirst h2 hb
    have hnone : pyFalsyOptStr (none : Option String) = true := rfl
    unfold _create_or_update_event_request
    unfold make_intervals_request
    simp [eventRequestPlan, _prepare_request_config, hkey, hfirst, parseOrStatus,
      _parse_response, h2, hb, ReqValue.toJson, _handle_event_response, herr,
      hkvse, hnone]
  · intro t resp hfirst h2 hb
    have hsome : pyFalsyOptStr (some e) = false := by simp [pyFalsyOptStr, hee]
    unfold _create_or_update_event_request
    unfold make_intervals_request
    simp [eventRequestPlan, _prepare_request_config, hkey, hfirst, parseOrStatus,
      _parse_response, h2, hb, ReqValue.toJson, _handle_event_response, herr,
      hkvse, hsome]

/-- Witness for C7 at a concrete successful creation and update. -/
theorem add_or_update_event_spec_witness :
    _create_or_update_event_request cfgWithKey "i1" none "2024-01-15" none
        ⟨.ok ⟨200, .json (Json.obj [("id", Json.str "e123")]), "ok"⟩, .ok respOk⟩ cs0
      = .ok ("Successfully created event: "
          ++ jsonDumps (Json.obj [("id", Json.str "e123")]))
    ∧ _create_or_update_event_request cfgWithKey "i1" none "2024-01-15" (some "e123")
        ⟨.ok ⟨200, .json (Json.obj [("id", Json.str "e123")]), "ok"⟩, .ok respOk⟩ cs0
      = .ok ("Successfully updated event: "
          ++ jsonDumps (Json.obj [("id", Json.str "e123")])) :=
  ⟨(add_or_update_event_spec cfgWithKey "i1" "2024-01-15" none "e123"
      [("id", Json.str "e123")] cs0 (by decide) (by decide) (List.cons_ne_nil _ _) rfl).2.2.1
      ⟨.ok ⟨200, .json (Json.obj [("id", Json.str "e123")]), "ok"⟩, .ok respOk⟩
      ⟨200, .json (Json.obj [("id", Json.str "e123")]), "ok"⟩ rfl (by decide) rfl,
   (add_or_update_event_spec cfgWithKey "i1" "2024-01-15" none "e123"
      [("id", Json.str "e123")] cs0 (by decide) (by decide) (List.cons_ne_nil _ _) rfl).2.2.2
      ⟨.ok ⟨200, .json (Json.obj [("id", Json.str "e123")]), "ok"⟩, .ok respOk⟩
      ⟨200, .json (Json.obj [("id", Json.str "e123")]), "ok"⟩ rfl (by decide) rfl⟩

/-- C10: a dict result that contains the key `"error"` — whatever its value,
including `False` or a domain field of that name — is reported as an error
string by `get_events`, `get_event_by_id` and `_handle_event_response`, and
never formatted as domain data: the handlers test key presence, not truth. -/
theorem handlers_error_key_presence (athlete_id event_id action start_date : String)
    (kvs : List (String × Json)) (h : hasKey "error" kvs = true) :
    get_events_formatResult athlete_id (Json.obj kvs)
        = "Error fetching events: " ++ getMessage kvs
  ∧ get_event_by_id_formatResult event_id (Json.obj kvs)
      = "Error fetching event details: " ++ getMessage kvs
  ∧ _handle_event_response (some (Json.obj kvs)) action athlete_id start_date
      = "Error " ++ action ++ " event: " ++ getMessage kvs := by
  refine ⟨?_, ?_, ?_⟩ <;>
    simp [get_events_formatResult, get_event_by_id_formatResult,
      _handle_event_response, h]

/-- Witness for C10: a dict whose `"error"` key holds `False` is still
reported as an error by all three handlers. -/
theorem handlers_error_key_presence_witness :
    get_events_formatResult "i1"
        (Json.obj [("error", Json.bool false), ("name", Json.str "x")])
      = "Error fetching events: "
          ++ getMessage [("error", Json.bool false), ("name", Json.str "x")]
    ∧ get_event_by_id_formatResult "e1"
        (Json.obj [("error", Json.bool false), ("name", Json.str "x")])
      = "Error fetching event details: "
          ++ getMessage [("error", Json.bool false), ("name", Json.str "x")]
    ∧ _handle_event_response
        (some (Json.obj [("error", Json.bool false), ("name", Json.str "x")]))
        "created" "i1" "2024-01-15"
      = "Error " ++ "created" ++ " event: "
          ++ getMessage [("error", Json.bool false), ("name", Json.str "x")] :=
  handlers_error_key_presence "i1" "e1" "created" "2024-01-15"
    [("error", Json.bool false), ("name", Json.str "x")] rfl

/-- Witness for C8: an explicit type wins, "Morning Swim" infers "Swim", and
an unmatched name falls back to "Ride". -/
theorem resolve_workout_type_spec_witness :
    _resolve_workout_type (some "Morning Swim") (some "Run") = "Run"
      ∧ _resolve_workout_type (some "Morning Swim") none = "Swim"
      ∧ _resolve_workout_type (some "Zumba") none = "Ride" :=
  ⟨resolve_workout_type_spec.1 (some "Morning Swim") "Run" (by decide),
   resolve_workout_type_spec.2.2.1,
   resolve_workout_type_spec.2.2.2 (some "Zumba") (by decide)⟩

end IntervalsMcp

